import Mathlib

/-!
Verification of the real-time streaming client of the creole-translator-web
repository.

The development shallowly embeds the three relevant source units:

* `src/hooks/useWebSocket.ts` — the streaming connection manager, embedded as
  an explicit state machine (`WSState`, `step`) whose observable side effects
  (opening/closing the transport, scheduling reconnect timers, transport
  sends) are recorded as a list of `WSAction`s;
* `src/hooks/useCreoleAPI.ts` — the request gateway, embedded as pure
  functions from an `HttpResponse` (the settled result of a single fetch) to
  `Except ApiFailure _`;
* the `App` component's recording pipeline (`startRecording` handlers),
  embedded as a fold over produced audio chunks.

`JSON.parse` / `JSON.stringify` of the host are embedded as an executable
fuel-based JSON parser (`parseJson`) and a message serializer.
-/

namespace CreoleWeb

/-- JSON values as produced by the host JSON.parse.  Numbers keep their raw
lexeme: no claim in this development depends on numeric value, only on parse
success and on string/object structure. -/
inductive Json where
  | null
  | bool (b : Bool)
  | num (lexeme : String)
  | str (s : String)
  | arr (elems : List Json)
  | obj (fields : List (String × Json))

/-- JSON whitespace. -/
def isJsonWs (c : Char) : Bool :=
  c = ' ' || c = '\t' || c = '\n' || c = '\r'

/-- Drop leading JSON whitespace. -/
def skipWs : List Char → List Char
  | [] => []
  | c :: cs => if isJsonWs c then skipWs cs else c :: cs

/-- Value of a hexadecimal digit. -/
def hexVal (c : Char) : Option Nat :=
  if '0' ≤ c ∧ c ≤ '9' then some (c.toNat - '0'.toNat)
  else if 'a' ≤ c ∧ c ≤ 'f' then some (c.toNat - 'a'.toNat + 10)
  else if 'A' ≤ c ∧ c ≤ 'F' then some (c.toNat - 'A'.toNat + 10)
  else none

/-- Single-character JSON string escapes. -/
def escChar (c : Char) : Option Char :=
  if c = '"' then some '"'
  else if c = '\\' then some '\\'
  else if c = '/' then some '/'
  else if c = 'b' then some (Char.ofNat 8)
  else if c = 'f' then some (Char.ofNat 12)
  else if c = 'n' then some '\n'
  else if c = 'r' then some '\r'
  else if c = 't' then some '\t'
  else none

/-- Parse the remainder of a JSON string literal (the opening quote has been
consumed); returns the string and the unconsumed input. -/
def parseStrAux (acc : List Char) : List Char → Option (String × List Char)
  | [] => none
  | '"' :: rest => some (String.mk acc.reverse, rest)
  | '\\' :: 'u' :: a :: b :: c :: d :: rest =>
      match hexVal a, hexVal b, hexVal c, hexVal d with
      | some ha, some hb, some hc, some hd =>
          parseStrAux (Char.ofNat (((ha * 16 + hb) * 16 + hc) * 16 + hd) :: acc) rest
      | _, _, _, _ => none
  | '\\' :: e :: rest =>
      match escChar e with
      | some c => parseStrAux (c :: acc) rest
      | none => none
  | c :: rest =>
      if c.toNat < 32 then none else parseStrAux (c :: acc) rest

/-- Split a leading run of decimal digits from the input. -/
def takeDigits : List Char → List Char × List Char
  | [] => ([], [])
  | c :: cs =>
      if c.isDigit then
        let p := takeDigits cs
        (c :: p.1, p.2)
      else ([], c :: cs)

/-- The integer part of a JSON number: `0` or a nonzero digit followed by
digits. -/
def parseIntPart : List Char → Option (List Char × List Char)
  | [] => none
  | '0' :: rest => some (['0'], rest)
  | c :: rest =>
      if c.isDigit then
        let p := takeDigits rest
        some (c :: p.1, p.2)
      else none

/-- The optional fractional part of a JSON number. -/
def parseFracPart : List Char → Option (List Char × List Char)
  | '.' :: rest =>
      let p := takeDigits rest
      if p.1.isEmpty then none else some ('.' :: p.1, p.2)
  | cs => some ([], cs)

/-- The optional exponent part of a JSON number. -/
def parseExpPart : List Char → Option (List Char × List Char)
  | [] => some ([], [])
  | c :: rest =>
      if c = 'e' ∨ c = 'E' then
        let sp : List Char × List Char :=
          match rest with
          | '+' :: r => (['+'], r)
          | '-' :: r => (['-'], r)
          | r => ([], r)
        let p := takeDigits sp.2
        if p.1.isEmpty then none else some (c :: (sp.1 ++ p.1), p.2)
      else some ([], c :: rest)

/-- Parse a JSON number, returning its lexeme. -/
def parseNumber (cs : List Char) : Option (String × List Char) :=
  let sp : List Char × List Char :=
    match cs with
    | '-' :: rest => (['-'], rest)
    | _ => ([], cs)
  match parseIntPart sp.2 with
  | none => none
  | some (ip, cs2) =>
      match parseFracPart cs2 with
      | none => none
      | some (fp, cs3) =>
          match parseExpPart cs3 with
          | none => none
          | some (ep, cs4) => some (String.mk (sp.1 ++ ip ++ fp ++ ep), cs4)

/-- Opening brace character. -/
def braceOpen : Char := Char.ofNat 123

/-- Closing brace character. -/
def braceClose : Char := Char.ofNat 125

mutual

/-- Fuel-based JSON value parser (the fuel strictly exceeds what any input of
the chosen size can consume, see `parseJson`). -/
def parseValue : Nat → List Char → Option (Json × List Char)
  | 0, _ => none
  | fuel + 1, cs =>
      match skipWs cs with
      | [] => none
      | 'n' :: 'u' :: 'l' :: 'l' :: rest => some (Json.null, rest)
      | 't' :: 'r' :: 'u' :: 'e' :: rest => some (Json.bool true, rest)
      | 'f' :: 'a' :: 'l' :: 's' :: 'e' :: rest => some (Json.bool false, rest)
      | '"' :: rest =>
          match parseStrAux [] rest with
          | some (s, r) => some (Json.str s, r)
          | none => none
      | '[' :: rest =>
          (match skipWs rest with
           | ']' :: r => some (Json.arr [], r)
           | _ =>
             match parseElems fuel rest with
             | some (es, r) => some (Json.arr es, r)
             | none => none)
      | c :: rest =>
          if c = braceOpen then
            (match skipWs rest with
             | [] => none
             | c2 :: r =>
               if c2 = braceClose then some (Json.obj [], r)
               else
                 match parseMembers fuel rest with
                 | some (fs, r2) => some (Json.obj fs, r2)
                 | none => none)
          else
            match parseNumber (c :: rest) with
            | some (lex, r) => some (Json.num lex, r)
            | none => none

/-- Parse one or more comma-separated array elements up to `]`. -/
def parseElems : Nat → List Char → Option (List Json × List Char)
  | 0, _ => none
  | fuel + 1, cs =>
      match parseValue fuel cs with
      | none => none
      | some (v, rest) =>
          match skipWs rest with
          | ',' :: r =>
              (match parseElems fuel r with
               | some (vs, r2) => some (v :: vs, r2)
               | none => none)
          | ']' :: r => some ([v], r)
          | _ => none

/-- Parse one or more comma-separated object members up to the closing
brace. -/
def parseMembers : Nat → List Char → Option (List (String × Json) × List Char)
  | 0, _ => none
  | fuel + 1, cs =>
      match skipWs cs with
      | '"' :: rest =>
          (match parseStrAux [] rest with
           | none => none
           | some (k, r1) =>
             match skipWs r1 with
             | ':' :: r2 =>
                 (match parseValue fuel r2 with
                  | none => none
                  | some (v, r3) =>
                    match skipWs r3 with
                    | ',' :: r4 =>
                        (match parseMembers fuel r4 with
                         | some (fs, r5) => some ((k, v) :: fs, r5)
                         | none => none)
                    | c :: r4 => if c = braceClose then some ([(k, v)], r4) else none
                    | [] => none)
             | _ => none)
      | _ => none

end

/-- Embedding of the host `JSON.parse`: parse a whole string as one JSON
value (trailing whitespace allowed), `none` on any syntax error. -/
def parseJson (s : String) : Option Json :=
  match parseValue (2 * s.length + 2) s.toList with
  | some (v, rest) => if (skipWs rest).isEmpty then some v else none
  | none => none

/-- Property access `j[key]` on a parsed value: defined only for objects;
with duplicate keys the last occurrence wins, as in the host. -/
def getField (j : Json) (key : String) : Option Json :=
  match j with
  | Json.obj fields => ((fields.filter (fun p => p.1 == key)).getLast?).map Prod.snd
  | _ => none

/-- JS strict equality of a parsed value against a string literal
(`x === "s"`), as used by the source on `message.type` and on
`result.value.status`. -/
def isStrVal (o : Option Json) (s : String) : Bool :=
  match o with
  | some (Json.str t) => t == s
  | _ => false

/-! ## Streaming Connection Manager (src/hooks/useWebSocket.ts)

The hook state (`socket`, `isConnected`, `lastMessage`, `error`,
`reconnectTimeoutRef`, `reconnectAttemptsRef`) becomes `WSState`; each event
handler of the source becomes one case of the `step` function.  Side effects
on the outside world are recorded as `WSAction`s. -/

/-- The `readyState` of the underlying browser WebSocket object. -/
inductive ReadyState where
  | connecting
  | opened
  | closing
  | closed
deriving Repr, DecidableEq

/-- State held by the `useWebSocket` hook: the socket (with its readyState)
or `none`, the four `useState` slots, and the two refs. -/
structure WSState where
  socket : Option ReadyState
  isConnected : Bool
  lastMessage : Option String
  error : Option String
  reconnectTimeout : Option Nat
  reconnectAttempts : Nat
deriving Repr, DecidableEq

/-- `maxReconnectAttempts = 5` (useWebSocket.ts line 12). -/
def maxReconnectAttempts : Nat := 5

/-- Observable side effects of the manager on the outside world. -/
inductive WSAction where
  | openTransport
  | closeTransport (code : Nat)
  | scheduleReconnect (delay : Nat)
  | clearReconnectTimer
  | transportSend (payload : String)
deriving Repr, DecidableEq

/-- The outbound message shape (`types/api.ts`): `type` is one of
`audio_chunk`, `config`, `stop`; `data` is optional. -/
structure WebSocketMessage where
  type : String
  data : Option String
deriving Repr, DecidableEq

/-- Events driving the manager: the two public operations, the four socket
callbacks, and the backoff timer firing.  `transportOk` tells whether the
underlying `socket.send` call succeeds or throws. -/
inductive WSEvent where
  | connectRequest
  | openEvent
  | messageEvent (data : String)
  | closeEvent (code : Nat)
  | errorEvent
  | reconnectTimerFires
  | disconnectRequest
  | sendRequest (msg : WebSocketMessage) (transportOk : Bool)
deriving Repr, DecidableEq

/-- `connect` (lines 14-68): a no-op when the socket's readyState is OPEN,
otherwise a new WebSocket is created (readyState CONNECTING) and stored.
Creation succeeding is assumed (the `catch` branch for a throwing
constructor is not exercised by any claim). -/
def connect (s : WSState) : WSState × List WSAction :=
  if s.socket = some ReadyState.opened then (s, [])
  else ({ s with socket := some ReadyState.connecting }, [WSAction.openTransport])

/-- `ws.onopen` (lines 22-27). -/
def onOpen (s : WSState) : WSState :=
  match s.socket with
  | none => s
  | some _ =>
      { s with socket := some ReadyState.opened, isConnected := true,
               error := none, reconnectAttempts := 0 }

/-- The error-state update performed by `ws.onmessage` after a successful
`JSON.parse` (lines 34-36): when `message.type === 'error'`, the handler
reads `message.data.message`; if `data` is absent or null that property
access throws a TypeError which the surrounding `catch` turns into the
parse-error message; otherwise a nonempty string message is surfaced and
anything falsy falls back to `'WebSocket error'`. -/
def onMessageError (j : Json) : Option String :=
  if isStrVal (getField j "type") "error" then
    match getField j "data" with
    | none => some "Failed to parse server message"
    | some Json.null => some "Failed to parse server message"
    | some d =>
        match getField d "message" with
        | some (Json.str m) => if m = "" then some "WebSocket error" else some m
        | _ => some "WebSocket error"
  else none

/-- `ws.onmessage` (lines 29-41): on parse success the raw event data is
stored in `lastMessage` (before the error-type inspection, so it is stored
even when that inspection throws); on parse failure only `error` is set. -/
def onMessage (s : WSState) (data : String) : WSState :=
  match parseJson data with
  | some j =>
      let s1 := { s with lastMessage := some data }
      match onMessageError j with
      | some e => { s1 with error := some e }
      | none => s1
  | none => { s with error := some "Failed to parse server message" }

/-- `timeout = Math.min(1000 * Math.pow(2, attempts), 30000)` (line 50). -/
def backoffDelay (attempt : Nat) : Nat :=
  min (1000 * 2 ^ attempt) 30000

/-- `ws.onclose` (lines 43-56): connection flag cleared and socket dropped;
a reconnect timer is scheduled only when the close code is not 1000 and the
attempt budget is not exhausted. -/
def onClose (s : WSState) (code : Nat) : WSState × List WSAction :=
  let s1 := { s with isConnected := false, socket := none }
  if code ≠ 1000 ∧ s.reconnectAttempts < maxReconnectAttempts then
    let d := backoffDelay s.reconnectAttempts
    ({ s1 with reconnectTimeout := some d }, [WSAction.scheduleReconnect d])
  else (s1, [])

/-- `ws.onerror` (lines 58-61). -/
def onError (s : WSState) : WSState :=
  { s with error := some "WebSocket connection error" }

/-- The reconnect timer callback (lines 51-54): increments the attempt
counter and calls `connect` again.  A timer that is not pending cannot
fire. -/
def timerFires (s : WSState) : WSState × List WSAction :=
  match s.reconnectTimeout with
  | none => (s, [])
  | some _ =>
      connect { s with reconnectTimeout := none,
                       reconnectAttempts := s.reconnectAttempts + 1 }

/-- `disconnect` (lines 70-83): clears a pending reconnect timer, closes an
existing socket with code 1000, and resets socket, connection flag and
attempt counter. -/
def disconnect (s : WSState) : WSState × List WSAction :=
  ({ s with socket := none, isConnected := false,
            reconnectTimeout := none, reconnectAttempts := 0 },
   (if s.reconnectTimeout.isSome then [WSAction.clearReconnectTimer] else []) ++
   (if s.socket.isSome then [WSAction.closeTransport 1000] else []))

/-- Character-level JSON string escaping as performed by `JSON.stringify`. -/
def escapeJsonChar (c : Char) : List Char :=
  if c = '"' then ['\\', '"']
  else if c = '\\' then ['\\', '\\']
  else if c = '\n' then ['\\', 'n']
  else if c = '\r' then ['\\', 'r']
  else if c = '\t' then ['\\', 't']
  else if c.toNat = 8 then ['\\', 'b']
  else if c.toNat = 12 then ['\\', 'f']
  else if c.toNat < 32 then
    ['\\', 'u', '0', '0',
     (if c.toNat / 16 < 10 then Char.ofNat ('0'.toNat + c.toNat / 16)
      else Char.ofNat ('a'.toNat + (c.toNat / 16 - 10))),
     (if c.toNat % 16 < 10 then Char.ofNat ('0'.toNat + c.toNat % 16)
      else Char.ofNat ('a'.toNat + (c.toNat % 16 - 10)))]
  else [c]

/-- A JSON string literal for `s`. -/
def jsonQuote (s : String) : String :=
  "\"" ++ String.mk (s.toList.flatMap escapeJsonChar) ++ "\""

/-- `JSON.stringify(message)` for a `WebSocketMessage`: an undefined `data`
field is omitted. -/
def stringifyMessage (m : WebSocketMessage) : String :=
  match m.data with
  | some d =>
      "\x7b\"type\":" ++ jsonQuote m.type ++ ",\"data\":" ++ jsonQuote d ++ "\x7d"
  | none => "\x7b\"type\":" ++ jsonQuote m.type ++ "\x7d"

/-- `sendMessage` (lines 85-97): the payload is sent only when the socket's
readyState is OPEN; a throwing `socket.send` is caught and recorded; when not
open the call records `'WebSocket not connected'` instead.  In every case the
function returns normally. -/
def sendMessage (s : WSState) (m : WebSocketMessage) (transportOk : Bool) :
    WSState × List WSAction :=
  if s.socket = some ReadyState.opened then
    if transportOk then (s, [WSAction.transportSend (stringifyMessage m)])
    else ({ s with error := some "Failed to send message" }, [])
  else ({ s with error := some "WebSocket not connected" }, [])

/-- One event-loop tick of the manager. -/
def step (s : WSState) : WSEvent → WSState × List WSAction
  | WSEvent.connectRequest => connect s
  | WSEvent.openEvent => (onOpen s, [])
  | WSEvent.messageEvent data => (onMessage s data, [])
  | WSEvent.closeEvent code => onClose s code
  | WSEvent.errorEvent => (onError s, [])
  | WSEvent.reconnectTimerFires => timerFires s
  | WSEvent.disconnectRequest => disconnect s
  | WSEvent.sendRequest m ok => sendMessage s m ok

/-- Run a list of events, collecting all emitted actions in order. -/
def run (s : WSState) : List WSEvent → WSState × List WSAction
  | [] => (s, [])
  | e :: es =>
      let p := step s e
      let q := run p.1 es
      (q.1, p.2 ++ q.2)

/-- The hook's initial state (lines 5-11). -/
def initialState : WSState :=
  { socket := none, isConnected := false, lastMessage := none,
    error := none, reconnectTimeout := none, reconnectAttempts := 0 }

/-- The state right after a successful connect handshake. -/
def connectedState : WSState :=
  { initialState with socket := some ReadyState.opened, isConnected := true }

/-- States reachable from the hook's initial state. -/
inductive Reachable : WSState → Prop where
  | init : Reachable initialState
  | next (s : WSState) (e : WSEvent) : Reachable s → Reachable (step s e).1

/-! ## Audio capture pipeline (`startRecording` in the App component)

`ondataavailable` pushes every produced chunk onto `audioChunksRef` and, when
the hook reports connected, additionally base64-encodes the chunk and sends
it through `sendAudioChunk`; `onstop` assembles one Blob from all retained
chunks.  Chunks are modelled as byte lists. -/

/-- The base64 alphabet. -/
def base64Chars : String :=
  "ABCDEFGHIJKLMNOPQRSTUVWXYZabcdefghijklmnopqrstuvwxyz0123456789+/"

/-- The base64 digit for a 6-bit group. -/
def base64Digit (n : Nat) : Char := base64Chars.toList.getD n 'A'

/-- RFC 4648 base64 of a byte list, as produced by
`FileReader.readAsDataURL` after stripping the data-URL header. -/
def base64Encode : List Nat → String
  | [] => ""
  | [a] =>
      String.mk [base64Digit (a / 4), base64Digit (a % 4 * 16)] ++ "=="
  | [a, b] =>
      String.mk [base64Digit (a / 4), base64Digit (a % 4 * 16 + b / 16),
                 base64Digit (b % 16 * 4)] ++ "="
  | a :: b :: c :: rest =>
      String.mk [base64Digit (a / 4), base64Digit (a % 4 * 16 + b / 16),
                 base64Digit (b % 16 * 4 + c / 64), base64Digit (c % 64)] ++
      base64Encode rest

/-- `sendAudioChunk(base64)` builds this outbound message
(useWebSocket.ts lines 99-104). -/
def audioChunkMessage (chunk : List Nat) : WebSocketMessage :=
  { type := "audio_chunk", data := some (base64Encode chunk) }

/-- `audioChunksRef` of the recording session. -/
structure RecorderState where
  audioChunks : List (List Nat)
deriving Repr, DecidableEq

/-- `ondataavailable` (App lines 157-168): the chunk is appended to the
session's chunk list unconditionally; when `wsConnected` it is additionally
streamed as a base64 `audio_chunk` message. -/
def ondataavailable (st : RecorderState) (chunk : List Nat) (wsConnected : Bool) :
    RecorderState × List WebSocketMessage :=
  ({ audioChunks := st.audioChunks ++ [chunk] },
   if wsConnected then [audioChunkMessage chunk] else [])

/-- Feed a whole capture session (each produced chunk together with the
connectivity flag in force when it was produced) through `ondataavailable`,
collecting the streamed messages in order. -/
def runCapture (st : RecorderState) :
    List (List Nat × Bool) → RecorderState × List WebSocketMessage
  | [] => (st, [])
  | (c, conn) :: rest =>
      let p := ondataavailable st c conn
      let q := runCapture p.1 rest
      (q.1, p.2 ++ q.2)

/-- `onstop` (App lines 170-182): the payload submitted for the final
transcription, a Blob built from all retained chunks in order. -/
def onstop (st : RecorderState) : List Nat :=
  st.audioChunks.flatten

/-! ## Request Gateway (src/hooks/useCreoleAPI.ts)

Each operation issues exactly one fetch; its settled result is modelled as
`Option HttpResponse` (`none` = the fetch rejected).  The outcome is a typed
success or a classified failure. -/

/-- The relevant parts of a fetch `Response`. -/
structure HttpResponse where
  ok : Bool
  status : Nat
  statusText : String
  body : String
deriving Repr, DecidableEq

/-- Failures a gateway operation can surface to its caller. -/
inductive ApiFailure where
  | network
  | malformedBody
  | httpError (message : String)
deriving Repr, DecidableEq

/-- The message thrown for a non-ok response by `apiCall` (lines 42-48) and
by the operations that copy its pattern: the `error` field of the parsed
body when it is a nonempty string, the operation's status-derived fallback
when the body parses but yields nothing usable, and the synthesized
`HTTP <status>: <statusText>` text when the body is not parseable JSON. -/
def errorBodyMessage (r : HttpResponse) (fallback : String) : String :=
  match parseJson r.body with
  | some j =>
      match getField j "error" with
      | some (Json.str s) => if s = "" then fallback else s
      | _ => fallback
  | none => "HTTP " ++ toString r.status ++ ": " ++ r.statusText

/-- `apiCall` (lines 29-56). -/
def apiCall (r : Option HttpResponse) : Except ApiFailure Json :=
  match r with
  | none => Except.error ApiFailure.network
  | some r =>
      if r.ok then
        match parseJson r.body with
        | some j => Except.ok j
        | none => Except.error ApiFailure.malformedBody
      else
        Except.error (ApiFailure.httpError
          (errorBodyMessage r ("API Error: " ++ toString r.status)))

/-- `transcribeAudio` (lines 131-154): same error handling as `apiCall` with
its own fallback text. -/
def transcribeAudio (r : Option HttpResponse) : Except ApiFailure Json :=
  match r with
  | none => Except.error ApiFailure.network
  | some r =>
      if r.ok then
        match parseJson r.body with
        | some j => Except.ok j
        | none => Except.error ApiFailure.malformedBody
      else
        Except.error (ApiFailure.httpError
          (errorBodyMessage r ("Transcription failed: " ++ toString r.status)))

/-- `synthesizeText` (lines 173-207): same error handling as `apiCall`; the
success value is the binary body. -/
def synthesizeText (r : Option HttpResponse) : Except ApiFailure String :=
  match r with
  | none => Except.error ApiFailure.network
  | some r =>
      if r.ok then Except.ok r.body
      else
        Except.error (ApiFailure.httpError
          (errorBodyMessage r ("Speech synthesis failed: " ++ toString r.status)))

/-- `detectLanguage` (lines 156-170): on a non-ok status it throws a purely
status-derived message without reading the body. -/
def detectLanguage (r : Option HttpResponse) : Except ApiFailure Json :=
  match r with
  | none => Except.error ApiFailure.network
  | some r =>
      if r.ok then
        match parseJson r.body with
        | some j => Except.ok j
        | none => Except.error ApiFailure.malformedBody
      else
        Except.error (ApiFailure.httpError
          ("Language detection failed: " ++ toString r.status))

/-- `previewVoice` (lines 209-231): on a non-ok status it throws a purely
status-derived message without reading the body. -/
def previewVoice (r : Option HttpResponse) : Except ApiFailure String :=
  match r with
  | none => Except.error ApiFailure.network
  | some r =>
      if r.ok then Except.ok r.body
      else
        Except.error (ApiFailure.httpError
          ("Voice preview failed: " ++ toString r.status))

/-- One settled result of `apiCall` is healthy when it fulfilled and the
parsed body's `status` field is the string `healthy`
(useCreoleAPI.ts lines 67-69). -/
def healthOk (r : Except ApiFailure Json) : Bool :=
  match r with
  | Except.ok j => isStrVal (getField j "status") "healthy"
  | Except.error _ => false

/-- `checkServiceHealth` (lines 59-77): the three health calls are settled,
connectivity is the conjunction of the three healthy tests, and the error
slot gets a fixed generic message whenever the conjunction fails. -/
def checkServiceHealth (translationRes sttRes ttsRes : Except ApiFailure Json) :
    Bool × Option String :=
  let allHealthy := healthOk translationRes && healthOk sttRes && healthOk ttsRes
  (allHealthy, if allHealthy then none else some "Some services are unavailable")

/-! ## Scenario material for the claims -/

/-- One abnormal-closure/reconnect cycle: the socket closes with the given
(non-1000) code, then the scheduled backoff timer fires. -/
def abnormalCycle (code : Nat) : List WSEvent :=
  [WSEvent.closeEvent code, WSEvent.reconnectTimerFires]

/-- `n` consecutive abnormal-closure/reconnect cycles. -/
def abnormalClosures (code : Nat) : Nat → List WSEvent
  | 0 => []
  | n + 1 => abnormalCycle code ++ abnormalClosures code n

/-- The delays of the reconnect timers scheduled among a list of actions. -/
def scheduledDelays (acts : List WSAction) : List Nat :=
  acts.filterMap (fun a =>
    match a with
    | WSAction.scheduleReconnect d => some d
    | _ => none)

/-! ## Theorems -/

theorem run_cons (s : WSState) (e : WSEvent) (es : List WSEvent) :
    run s (e :: es) =
      ((run (step s e).1 es).1, (step s e).2 ++ (run (step s e).1 es).2) := rfl

theorem backoffDelay_le_succ (k : Nat) : backoffDelay k ≤ backoffDelay (k + 1) := by
  unfold backoffDelay
  exact min_le_min (Nat.mul_le_mul_left _ (Nat.pow_le_pow_right (by norm_num) (Nat.le_succ k))) le_rfl

theorem chainLe_map_range (f : Nat → Nat) (h : ∀ k, f k ≤ f (k + 1)) (n : Nat) :
    List.Chain' (· ≤ ·) ((List.range n).map f) := by
  rw [List.chain'_map]
  cases n with
  | zero => simp
  | succ n => exact (List.chain'_range_succ _ _).mpr (fun m _ => h m)

/-- Backbone of C1: over `n` consecutive abnormal-closure cycles the manager
schedules one reconnect per closure, with the delay computed from the attempt
count in force at that closure. -/
theorem scheduledDelays_abnormalClosures (code : Nat) (hcode : code ≠ 1000) :
    ∀ (n : Nat) (s : WSState),
      s.reconnectAttempts + n ≤ maxReconnectAttempts →
      scheduledDelays (run s (abnormalClosures code n)).2 =
        (List.range n).map (fun k => backoffDelay (s.reconnectAttempts + k)) := by
  intro n
  induction n with
  | zero =>
      intro s _
      simp [abnormalClosures, run, scheduledDelays]
  | succ n ih =>
      intro s h
      have ha : s.reconnectAttempts < maxReconnectAttempts := by omega
      have hclosures : abnormalClosures code (n + 1) =
          WSEvent.closeEvent code :: WSEvent.reconnectTimerFires ::
            abnormalClosures code n := rfl
      rw [hclosures, run_cons]
      have hclose : step s (WSEvent.closeEvent code) =
          ({ s with isConnected := false, socket := none,
                    reconnectTimeout := some (backoffDelay s.reconnectAttempts) },
           [WSAction.scheduleReconnect (backoffDelay s.reconnectAttempts)]) := by
        simp [step, onClose, hcode, ha]
      rw [hclose]
      rw [run_cons]
      have hfire : step
            ({ s with isConnected := false, socket := none,
                      reconnectTimeout := some (backoffDelay s.reconnectAttempts) })
            WSEvent.reconnectTimerFires =
          ({ s with isConnected := false, socket := some ReadyState.connecting,
                    reconnectTimeout := none,
                    reconnectAttempts := s.reconnectAttempts + 1 },
           [WSAction.openTransport]) := by
        simp [step, timerFires, connect]
      rw [hfire]
      have ih2 := ih { s with isConnected := false,
                              socket := some ReadyState.connecting,
                              reconnectTimeout := none,
                              reconnectAttempts := s.reconnectAttempts + 1 }
        (by simp; omega)
      simp only [scheduledDelays, List.filterMap_append] at ih2 ⊢
      simp only [List.filterMap_cons, List.filterMap_nil]
      rw [ih2]
      rw [List.range_succ_eq_map, List.map_cons, List.map_map]
      simp only [List.singleton_append, List.nil_append, Nat.add_zero, Function.comp,
        Nat.succ_eq_add_one]
      congr 1
      apply List.map_congr_left
      intro k hk
      congr 1
      omega

/-- C1: for every sequence of `N` consecutive abnormal closures with `N`
below the maximum of 5 attempts, the manager schedules exactly `N` reconnect
attempts, the delay before attempt `k` equals `min(1000·2^k, 30000)`
milliseconds, and the delay sequence is non-decreasing. -/
theorem c1_reconnect_backoff (N code : Nat) (hN : N < maxReconnectAttempts)
    (hcode : code ≠ 1000) :
    scheduledDelays (run connectedState (abnormalClosures code N)).2 =
      (List.range N).map (fun k => min (1000 * 2 ^ k) 30000) ∧
    (scheduledDelays (run connectedState (abnormalClosures code N)).2).length = N ∧
    List.Chain' (· ≤ ·)
      (scheduledDelays (run connectedState (abnormalClosures code N)).2) := by
  have hmain := scheduledDelays_abnormalClosures code hcode N connectedState
    (by simp [connectedState, initialState]; omega)
  have h0 : connectedState.reconnectAttempts = 0 := rfl
  rw [h0] at hmain
  simp only [Nat.zero_add, backoffDelay] at hmain
  refine ⟨hmain, ?_, ?_⟩
  · rw [hmain]; simp
  · rw [hmain]
    exact chainLe_map_range _ (fun k => backoffDelay_le_succ k) N

/-- Witness for C1 at `N = 3`, abnormal close code 1006: three reconnects
with delays 1s, 2s, 4s. -/
theorem c1_reconnect_backoff_witness :
    3 < maxReconnectAttempts ∧ (1006 : Nat) ≠ 1000 ∧
    scheduledDelays (run connectedState (abnormalClosures 1006 3)).2 =
      [1000, 2000, 4000] :=
  ⟨by decide, by decide, by
    have h := (c1_reconnect_backoff 3 1006 (by decide) (by decide)).1
    rw [h]; decide⟩

/-- C2: a closure carrying the normal-closure code 1000 never schedules a
reconnect: the close handler emits no action at all and leaves the
pending-timer slot untouched. -/
theorem c2_normal_close_never_reconnects (s : WSState) :
    (step s (WSEvent.closeEvent 1000)).2 = [] ∧
    (step s (WSEvent.closeEvent 1000)).1.reconnectTimeout = s.reconnectTimeout := by
  simp [step, onClose]

/-- C3: `disconnect()` from any state leaves the manager disconnected with no
socket, no pending reconnect timer and a reset attempt counter; it closes the
transport (code 1000) exactly when one was held; and a second call changes
nothing and performs no action. -/
theorem c3_disconnect_always_disconnected (s : WSState) :
    (step s WSEvent.disconnectRequest).1 =
      { s with socket := none, isConnected := false,
               reconnectTimeout := none, reconnectAttempts := 0 } ∧
    (step s WSEvent.disconnectRequest).2 =
      (if s.reconnectTimeout.isSome then [WSAction.clearReconnectTimer] else []) ++
      (if s.socket.isSome then [WSAction.closeTransport 1000] else []) ∧
    step (step s WSEvent.disconnectRequest).1 WSEvent.disconnectRequest =
      ((step s WSEvent.disconnectRequest).1, []) := by
  refine ⟨rfl, rfl, ?_⟩
  simp [step, disconnect]

/-- Reachability invariant: an OPEN socket is only ever held while the
connected flag is set (the open handler establishes both together, and every
handler that drops one drops the other). -/
theorem reachable_open_implies_connected (s : WSState) (h : Reachable s) :
    s.socket = some ReadyState.opened → s.isConnected = true := by
  induction h with
  | init => intro h0; simp [initialState] at h0
  | next s e hs ih =>
      cases e with
      | connectRequest =>
          simp only [step, connect]
          by_cases hso : s.socket = some ReadyState.opened
          · simp only [hso, if_pos]
            intro _
            exact ih hso
          · simp [hso]
      | openEvent =>
          simp only [step, onOpen]
          cases hso : s.socket with
          | none => exact ih
          | some rs => simp
      | messageEvent d =>
          simp only [step, onMessage]
          cases hp : parseJson d with
          | none => simpa using ih
          | some j =>
              cases ho : onMessageError j with
              | none => simpa [ho] using ih
              | some e2 => simpa [ho] using ih
      | closeEvent code =>
          simp only [step, onClose]
          by_cases hc : code ≠ 1000 ∧ s.reconnectAttempts < maxReconnectAttempts
          · simp [hc]
          · simp [hc]
      | errorEvent =>
          simp only [step, onError]
          exact ih
      | reconnectTimerFires =>
          simp only [step, timerFires]
          cases ht : s.reconnectTimeout with
          | none => exact ih
          | some d =>
              simp only [connect]
              by_cases hso : s.socket = some ReadyState.opened
              · simp only [hso, if_pos]
                intro _
                exact ih hso
              · simp [hso]
      | disconnectRequest => simp [step, disconnect]
      | sendRequest m ok =>
          simp only [step, sendMessage]
          by_cases hso : s.socket = some ReadyState.opened
          · cases ok with
            | false => simpa [hso] using ih
            | true =>
                simp only [hso, if_pos, if_true]
                exact fun _ => ih hso
          · simp only [hso, if_neg, if_false]
            exact fun hx => hx.elim

/-- C4: in any reachable state where the manager is not Connected, `send`
performs no transport send, records the `'WebSocket not connected'` error as
the only state change, and (being a total function) returns to the caller
rather than throwing. -/
theorem c4_send_when_not_connected (s : WSState) (m : WebSocketMessage)
    (ok : Bool) (hr : Reachable s) (h : s.isConnected = false) :
    (step s (WSEvent.sendRequest m ok)).1 =
      { s with error := some "WebSocket not connected" } ∧
    (step s (WSEvent.sendRequest m ok)).2 = [] := by
  have hso : ¬ s.socket = some ReadyState.opened := by
    intro hx
    have hc := reachable_open_implies_connected s hr hx
    rw [h] at hc
    exact Bool.noConfusion hc
  simp [step, sendMessage, hso]

/-- Witness for C4: sending from the initial (disconnected) state. -/
theorem c4_send_when_not_connected_witness :
    initialState.isConnected = false ∧
    (step initialState (WSEvent.sendRequest { type := "stop", data := none } true)).1 =
      { initialState with error := some "WebSocket not connected" } :=
  ⟨rfl,
   (c4_send_when_not_connected initialState { type := "stop", data := none } true
      Reachable.init rfl).1⟩

/-- The state whose retry budget is exhausted: what one connect, a successful
handshake and five abnormal-closure/reconnect cycles actually produce — its
attempt counter is 5 and its error slot is empty. -/
def exhaustedState : WSState :=
  (run initialState
    ([WSEvent.connectRequest, WSEvent.openEvent] ++ abnormalClosures 1006 5)).1

/-- C5 counterexample: at the abnormal closure that finds the attempt count
at the maximum, reconnection is indeed abandoned, but no error at all is
recorded — the error slot stays empty — so no error surfacing the exhaustion
of the retry budget exists.  Moreover the only error the manager records
around a failed attempt, the error handler's generic connection error, is
identical whether or not the budget is exhausted. -/
theorem c5_no_exhaustion_error_counterexample :
    (step exhaustedState (WSEvent.closeEvent 1006)).1.error = none ∧
    (step exhaustedState (WSEvent.closeEvent 1006)).2 = [] ∧
    (step exhaustedState WSEvent.errorEvent).1.error =
      (step { exhaustedState with reconnectAttempts := 1 } WSEvent.errorEvent).1.error :=
  ⟨rfl, rfl, rfl⟩

/-- C5 (amended): once the attempt count has reached the fixed maximum of 5,
an abnormal closure abandons reconnection — no further attempt is scheduled,
no action is emitted, the manager ends disconnected with no socket — and the
error state is left unchanged: the manager records no exhaustion-specific
error (the generic connection error recorded by the error handler on every
failed attempt is the only user-visible error). -/
theorem c5_exhaustion_abandons_reconnect (s : WSState) (code : Nat)
    (_hcode : code ≠ 1000) (h : maxReconnectAttempts ≤ s.reconnectAttempts) :
    (step s (WSEvent.closeEvent code)).1 =
      { s with isConnected := false, socket := none } ∧
    (step s (WSEvent.closeEvent code)).2 = [] := by
  have hcond : ¬ (code ≠ 1000 ∧ s.reconnectAttempts < maxReconnectAttempts) :=
    fun hx => absurd hx.2 (by omega)
  simp [step, onClose, hcond]

/-- Witness for C5 (amended) at the concrete exhausted state. -/
theorem c5_exhaustion_abandons_reconnect_witness :
    (1006 : Nat) ≠ 1000 ∧
    maxReconnectAttempts ≤ exhaustedState.reconnectAttempts ∧
    (step exhaustedState (WSEvent.closeEvent 1006)).2 = [] :=
  ⟨by decide, by decide,
   (c5_exhaustion_abandons_reconnect exhaustedState 1006 (by decide) (by decide)).2⟩

/-- A state holding a socket that is still CONNECTING; it is exactly what
one `connect()` from the initial state produces. -/
def connectingState : WSState :=
  { socket := some ReadyState.connecting, isConnected := false,
    lastMessage := none, error := none, reconnectTimeout := none,
    reconnectAttempts := 0 }

/-- C9 counterexample: while a connection already exists but its readyState
is still CONNECTING, `connect()` is not a no-op — it opens a second
underlying transport (the early-return guard only checks for OPEN). -/
theorem c9_connect_not_idempotent_counterexample :
    (step initialState WSEvent.connectRequest).1 = connectingState ∧
    connectingState.socket.isSome = true ∧
    (step connectingState WSEvent.connectRequest).2 = [WSAction.openTransport] :=
  ⟨rfl, rfl, rfl⟩

/-- C9 (amended): `connect()` is idempotent exactly in the Connected state —
when the socket's readyState is OPEN it neither changes any state nor opens
a second transport connection. -/
theorem c9_connect_noop_when_open (s : WSState)
    (h : s.socket = some ReadyState.opened) :
    step s WSEvent.connectRequest = (s, []) := by
  simp [step, connect, h]

/-- Witness for C9 (amended) at the connected state. -/
theorem c9_connect_noop_when_open_witness :
    connectedState.socket = some ReadyState.opened ∧
    step connectedState WSEvent.connectRequest = (connectedState, []) :=
  ⟨rfl, c9_connect_noop_when_open connectedState rfl⟩

/-- The invariant of C10: the visible last-message slot is either empty or
holds a string that parses as JSON. -/
def lastMessageParses (s : WSState) : Prop :=
  ∀ m, s.lastMessage = some m → (parseJson m).isSome = true

/-- The last-message slot is changed by no event except a message event whose
data parses as JSON, which stores that data. -/
theorem step_lastMessage (s : WSState) (e : WSEvent) :
    (step s e).1.lastMessage = s.lastMessage ∨
    (∃ d, e = WSEvent.messageEvent d ∧ (parseJson d).isSome = true ∧
      (step s e).1.lastMessage = some d) := by
  cases e with
  | connectRequest =>
      left
      simp only [step, connect]
      split <;> rfl
  | openEvent =>
      left
      simp only [step, onOpen]
      cases s.socket <;> rfl
  | messageEvent d =>
      cases hp : parseJson d with
      | none => left; simp [step, onMessage, hp]
      | some j =>
          right
          refine ⟨d, rfl, by simp [hp], ?_⟩
          cases ho : onMessageError j <;> simp [step, onMessage, hp, ho]
  | closeEvent code =>
      left
      by_cases hc : code ≠ 1000 ∧ s.reconnectAttempts < maxReconnectAttempts
      · simp [step, onClose, hc]
      · simp [step, onClose, hc]
  | errorEvent => left; rfl
  | reconnectTimerFires =>
      left
      simp only [step, timerFires]
      cases s.reconnectTimeout with
      | none => rfl
      | some d =>
          simp only [connect]
          split <;> rfl
  | disconnectRequest => left; rfl
  | sendRequest m ok =>
      left
      simp only [step, sendMessage]
      by_cases hso : s.socket = some ReadyState.opened
      · cases ok <;> simp [hso]
      · simp [hso]

/-- C10: every operation of the manager preserves the invariant that the
last-received-message slot is empty or holds a JSON-parseable string, and an
inbound message that fails JSON parsing leaves that slot unchanged — only
the error state is updated. -/
theorem c10_lastMessage_invariant (s : WSState) (e : WSEvent)
    (h : lastMessageParses s) :
    lastMessageParses (step s e).1 ∧
    (∀ d, parseJson d = none →
      (step s (WSEvent.messageEvent d)).1 =
        { s with error := some "Failed to parse server message" }) := by
  constructor
  · rcases step_lastMessage s e with hsame | ⟨d, _, hp, hnew⟩
    · intro m hm
      exact h m (hsame ▸ hm)
    · intro m hm
      rw [hnew] at hm
      injection hm with hdm
      rw [← hdm]
      exact hp
  · intro d hp
    simp [step, onMessage, hp]

/-- Witness for C10: the empty initial slot, and a non-JSON inbound message
leaving it empty while recording the parse error. -/
theorem c10_lastMessage_invariant_witness :
    lastMessageParses initialState ∧
    parseJson "not json" = none ∧
    (step initialState (WSEvent.messageEvent "not json")).1 =
      { initialState with error := some "Failed to parse server message" } :=
  ⟨fun _ hm => Option.noConfusion hm, rfl,
   (c10_lastMessage_invariant initialState (WSEvent.messageEvent "not json")
      (fun _ hm => Option.noConfusion hm)).2 "not json" rfl⟩

/-- Backbone of C6: over any capture session, the chunk list grows by every
produced chunk in order, and exactly the chunks produced while connected are
streamed, in order, as base64 audio-chunk messages. -/
theorem runCapture_chunks (produced : List (List Nat × Bool)) :
    ∀ st : RecorderState,
      (runCapture st produced).1.audioChunks =
        st.audioChunks ++ produced.map Prod.fst ∧
      (runCapture st produced).2 =
        (produced.filter Prod.snd).map (fun p => audioChunkMessage p.1) := by
  induction produced with
  | nil => intro st; simp [runCapture]
  | cons p rest ih =>
      intro st
      obtain ⟨c, conn⟩ := p
      have hrest := ih { audioChunks := st.audioChunks ++ [c] }
      constructor
      · show (runCapture { audioChunks := st.audioChunks ++ [c] } rest).1.audioChunks = _
        rw [hrest.1]
        simp
      · show (if conn then [audioChunkMessage c] else []) ++
            (runCapture { audioChunks := st.audioChunks ++ [c] } rest).2 = _
        rw [hrest.2]
        cases conn <;> simp [List.filter]

/-- C6: every chunk produced during a capture session is appended to the
session's local chunk list whether or not the stream is connected; chunks
are streamed as base64 AudioChunk messages exactly while connected; and the
final payload submitted for transcription is the in-order concatenation of
all produced chunks, whose byte count is the total audio produced — no chunk
is ever dropped from the final assembly. -/
theorem c6_no_chunk_dropped (produced : List (List Nat × Bool)) :
    (runCapture { audioChunks := [] } produced).1.audioChunks =
      produced.map Prod.fst ∧
    (runCapture { audioChunks := [] } produced).2 =
      (produced.filter Prod.snd).map (fun p => audioChunkMessage p.1) ∧
    onstop (runCapture { audioChunks := [] } produced).1 =
      (produced.map Prod.fst).flatten ∧
    (onstop (runCapture { audioChunks := [] } produced).1).length =
      ((produced.map Prod.fst).map List.length).sum := by
  have h := runCapture_chunks produced { audioChunks := [] }
  refine ⟨by simpa using h.1, h.2, ?_, ?_⟩
  · show (runCapture { audioChunks := [] } produced).1.audioChunks.flatten = _
    rw [h.1]
    simp
  · show (runCapture { audioChunks := [] } produced).1.audioChunks.flatten.length = _
    rw [h.1]
    simp [List.length_flatten]

/-- A non-success response carrying the documented structured error body. -/
def structuredErrorResponse : HttpResponse :=
  { ok := false, status := 500, statusText := "Internal Server Error",
    body := "\x7b\"error\":\"boom\",\"status_code\":500,\"timestamp\":\"t\"\x7d" }

/-- C7 counterexample: on a non-success status whose body is parseable JSON
with a structured message, `apiCall` does surface that message — but
`detectLanguage` (and likewise `previewVoice`) surfaces only the generic
status-derived message, ignoring the parseable body; so the claim is false
for those gateway operations. -/
theorem c7_detectLanguage_ignores_body_counterexample :
    structuredErrorResponse.ok = false ∧
    parseJson structuredErrorResponse.body =
      some (Json.obj [("error", Json.str "boom"), ("status_code", Json.num "500"),
                      ("timestamp", Json.str "t")]) ∧
    apiCall (some structuredErrorResponse) =
      Except.error (ApiFailure.httpError "boom") ∧
    detectLanguage (some structuredErrorResponse) =
      Except.error (ApiFailure.httpError "Language detection failed: 500") ∧
    previewVoice (some structuredErrorResponse) =
      Except.error (ApiFailure.httpError "Voice preview failed: 500") :=
  ⟨rfl, rfl, rfl, rfl, rfl⟩

/-- C7 (amended): every non-success status is surfaced as a failure and no
operation retries (each consumes a single response); for `apiCall`-based
operations and for `transcribeAudio`/`synthesizeText` the failure message
comes from the structured error body (its `error` string) when the body is
parseable JSON, else from a generic status-derived message; `detectLanguage`
and `previewVoice` always use a generic status-derived message. -/
theorem c7_gateway_error_surfacing (r : HttpResponse) (hok : r.ok = false) :
    apiCall (some r) = Except.error (ApiFailure.httpError
      (errorBodyMessage r ("API Error: " ++ toString r.status))) ∧
    transcribeAudio (some r) = Except.error (ApiFailure.httpError
      (errorBodyMessage r ("Transcription failed: " ++ toString r.status))) ∧
    synthesizeText (some r) = Except.error (ApiFailure.httpError
      (errorBodyMessage r ("Speech synthesis failed: " ++ toString r.status))) ∧
    detectLanguage (some r) = Except.error (ApiFailure.httpError
      ("Language detection failed: " ++ toString r.status)) ∧
    previewVoice (some r) = Except.error (ApiFailure.httpError
      ("Voice preview failed: " ++ toString r.status)) ∧
    (∀ j s fb, parseJson r.body = some j →
      getField j "error" = some (Json.str s) → s ≠ "" →
      errorBodyMessage r fb = s) ∧
    (parseJson r.body = none → ∀ fb,
      errorBodyMessage r fb = "HTTP " ++ toString r.status ++ ": " ++ r.statusText) := by
  refine ⟨by simp [apiCall, hok], by simp [transcribeAudio, hok],
          by simp [synthesizeText, hok], by simp [detectLanguage, hok],
          by simp [previewVoice, hok], ?_, ?_⟩
  · intro j s fb hp hf hs
    simp [errorBodyMessage, hp, hf, hs]
  · intro hp fb
    simp [errorBodyMessage, hp]

/-- Witness for C7 (amended) at the structured 500 response: the parseable
body's message is used by `apiCall`, not by `detectLanguage`. -/
theorem c7_gateway_error_surfacing_witness :
    structuredErrorResponse.ok = false ∧
    errorBodyMessage structuredErrorResponse ("API Error: " ++ toString (500 : Nat)) =
      "boom" :=
  ⟨rfl,
   (c7_gateway_error_surfacing structuredErrorResponse rfl).2.2.2.2.2.1
     (Json.obj [("error", Json.str "boom"), ("status_code", Json.num "500"),
                ("timestamp", Json.str "t")])
     "boom" _ rfl rfl (by decide)⟩

/-- C8: connectivity is reported `true` exactly when all three settled health
results are fulfilled with a `healthy` status; otherwise connectivity is
`false` and the fixed, non-empty generic message is recorded, so partial
failure is indistinguishable from total failure. -/
theorem c8_health_all_or_nothing (t u v : Except ApiFailure Json) :
    ((checkServiceHealth t u v).1 = true ↔
      (healthOk t = true ∧ healthOk u = true ∧ healthOk v = true)) ∧
    ((checkServiceHealth t u v).2 =
      if healthOk t && healthOk u && healthOk v then none
      else some "Some services are unavailable") ∧
    (∀ t2 u2 v2, (checkServiceHealth t u v).1 = false →
      (checkServiceHealth t2 u2 v2).1 = false →
      checkServiceHealth t u v = checkServiceHealth t2 u2 v2) ∧
    "Some services are unavailable" ≠ "" := by
  refine ⟨?_, rfl, ?_, by decide⟩
  · simp [checkServiceHealth, and_assoc]
  · intro t2 u2 v2 h1 h2
    simp only [checkServiceHealth] at h1 h2 ⊢
    rw [h1, h2]

/-- A fulfilled health response with a healthy status. -/
def healthyResponse : HttpResponse :=
  { ok := true, status := 200, statusText := "OK",
    body := "\x7b\"status\":\"healthy\"\x7d" }

/-- A fulfilled health response with a non-healthy status. -/
def degradedResponse : HttpResponse :=
  { ok := true, status := 200, statusText := "OK",
    body := "\x7b\"status\":\"degraded\"\x7d" }

/-- Witness for C8: transcription degraded while the other two are healthy
yields disconnected with the generic message, indistinguishable from all
three being network-rejected. -/
theorem c8_health_all_or_nothing_witness :
    checkServiceHealth (apiCall (some healthyResponse))
        (apiCall (some degradedResponse)) (apiCall (some healthyResponse)) =
      (false, some "Some services are unavailable") ∧
    checkServiceHealth (apiCall (some healthyResponse))
        (apiCall (some degradedResponse)) (apiCall (some healthyResponse)) =
      checkServiceHealth (Except.error ApiFailure.network)
        (Except.error ApiFailure.network) (Except.error ApiFailure.network) :=
  ⟨rfl,
   (c8_health_all_or_nothing _ _ _).2.2.1
     (Except.error ApiFailure.network) (Except.error ApiFailure.network)
     (Except.error ApiFailure.network) rfl rfl⟩

end CreoleWeb
